import Mathlib

/-!
Shallow embedding of `main.go` of airtame-cli

The program is a single-shot command line client: authenticate, call one of
the endpoints, print or act.  Everything outside the program text (the HTTP
round trips, the cookie jar, `encoding/json` decoding, `fmt` formatting,
`strconv.Atoi`, `strings.ToLower`, writing to standard output) is collected in
a `World` record that is passed explicitly.  Every function of the source becomes a
pure function returning the list of observable events it caused together
with its Go return values.
-/

namespace Airtame

/-! ## Go values -/

/-- Go slice value.  A slice is either the `nil` slice or a non-nil slice with
its elements; both have a length and can be ranged over, but `encoding/json`
tells them apart. -/
inductive GoSlice (α : Type) where
  | nil : GoSlice α
  | mk (elems : List α) : GoSlice α
deriving DecidableEq

namespace GoSlice

/-- Elements of a slice in index order (what `for _, x := range s` visits). -/
def toList {α : Type} : GoSlice α → List α
  | nil => []
  | mk l => l

/-- Go builtin `len(s)`. -/
def len {α : Type} (s : GoSlice α) : Nat := s.toList.length

/-- Go builtin `append(s, xs...)`: appending nothing to the nil slice gives the
nil slice back, every other result is a non-nil slice. -/
def append {α : Type} : GoSlice α → List α → GoSlice α
  | nil, [] => nil
  | nil, x :: xs => mk (x :: xs)
  | mk l, xs => mk (l ++ xs)

end GoSlice

/-- Go `error` value that is not nil. -/
inductive GoError where
  -- Result of `errors.New(msg)` in the program text.
  | errorsNew (msg : String) : GoError
  -- Error value handed back by a library call (net/http, encoding/json,
  -- strconv, cookiejar).
  | external (msg : String) : GoError
deriving DecidableEq

deriving instance DecidableEq for Except

/-! ## Data model (`Group`, `Device`) -/

/-- Element type of `Device.NetworkState.Interfaces`. -/
structure Interface where
  Frequency : Int
  IP : String
  Mac : String
  Mode : String
  Name : String
  SignalStrength : Int
  Ssid : String
  Status : String
  Type_ : String
deriving DecidableEq

/-- Anonymous struct type of `Device.NetworkState`. -/
structure NetworkState where
  Online : Bool
  Interfaces : GoSlice Interface
deriving DecidableEq

/-- An individual AirTame device. -/
structure Device where
  Platform : String
  Version : String
  State : String
  ScreenshotEnabled : Bool
  SettingsState : String
  ID : Int
  Ap24Enabled : Bool
  Ap24Channel : Int
  Ap52Enabled : Bool
  Ap52Channel : Int
  BackgroundType : String
  DeviceName : String
  LastSeen : Int
  LastConnected : Int
  IsOnline : Bool
  NetworkState : NetworkState
  UpdateAvailable : Bool
  UpdateChannel : String
  UpdateProgress : Int
  HomescreenOrientation : String
deriving DecidableEq

/-- Go zero value of `Device`. -/
def Device.zero : Device :=
  { Platform := "", Version := "", State := "", ScreenshotEnabled := false,
    SettingsState := "", ID := 0, Ap24Enabled := false, Ap24Channel := 0,
    Ap52Enabled := false, Ap52Channel := 0, BackgroundType := "",
    DeviceName := "", LastSeen := 0, LastConnected := 0, IsOnline := false,
    NetworkState := { Online := false, Interfaces := GoSlice.nil },
    UpdateAvailable := false, UpdateChannel := "", UpdateProgress := 0,
    HomescreenOrientation := "" }

/-- Composite literal `Device{ID: idInt}`: every other field keeps its zero
value. -/
def Device.hollow (idInt : Int) : Device := { Device.zero with ID := idInt }

/-- A device group, which here is a building. -/
structure Group where
  GroupID : Int
  GroupName : String
  OrganizationID : Int
  Devices : GoSlice Device
deriving DecidableEq

/-! ## HTTP client, session, world -/

/-- Handle of a cookie jar made by `cookiejar.New`; its contents live in the
world. -/
structure CookieJar where
  id : Nat
deriving DecidableEq

/-- The part of `http.Client` the program sets: the `Jar` field, `none` for the
nil jar of the zero client. -/
structure Client where
  Jar : Option CookieJar
deriving DecidableEq

/-- An HTTP client that automatically adds the session cookie
(`type Session struct` embedding `http.Client`). -/
structure Session where
  Client : Client
deriving DecidableEq

/-- Composite literal `Session{}`. -/
def Session.zero : Session := { Client := { Jar := none } }

/-- The part of `*http.Response` the program reads. -/
structure Response where
  StatusCode : Int
  Body : String
deriving DecidableEq

/-- Constant `http.StatusOK`. -/
def StatusOK : Int := 200

/-- Constant `http.StatusUnauthorized`. -/
def StatusUnauthorized : Int := 401

/-- Everything the program calls but does not define.  `τ` is the type of the
entries of the loosely typed `errors` array (`interface{}` in the source). -/
structure World (τ : Type) where
  -- `strings.ToLower`.
  toLower : String → String
  -- `strconv.Atoi`.
  atoi : String → Except GoError Int
  -- `json.Marshal` of the login struct `{email, password, persist}`.
  marshalLogin : String → String → Bool → Except GoError String
  -- `cookiejar.New` with the public suffix list.
  cookiejarNew : Except GoError CookieJar
  -- `client.Post(url, contentType, body)`; an error is a transport failure.
  post : Client → String → String → String → Except GoError Response
  -- `client.Get(url)`; an error is a transport failure.
  get : Client → String → Except GoError Response
  -- `json.NewDecoder(body).Decode(&groups)` for `groups []Group`.
  decodeGroups : String → Except GoError (GoSlice Group)
  -- `json.NewDecoder(body).Decode(&respObj)`: the resulting `respObj.Errors`.
  decodeErrors : String → Except GoError (GoSlice τ)
  -- `fmt.Sprintln(v)` without the final newline: the default formatting of a
  -- decoded entry, which is what `log.Println(v)` writes.
  sprintln : τ → String
  -- `jsonOut.Encode(groups)` on standard output; `none` is the nil error.
  encodeGroups : GoSlice Group → Option GoError
  -- `jsonOut.Encode(devices)` on standard output; `none` is the nil error.
  encodeDevices : GoSlice Device → Option GoError

/-- Observable actions of a run, in program order. -/
inductive Event where
  -- Call of `Post` on an HTTP client.
  | httpPost (client : Client) (url contentType body : String)
  -- Call of `Get` on an HTTP client.
  | httpGet (client : Client) (url : String)
  -- `io.Copy(os.Stderr, resp.Body)`.
  | stderrCopy (body : String)
  -- `log.Println(err)` on one entry of the `errors` array: the text it writes
  -- after the logger's date and time, without the final newline.
  | logPrintln (line : String)
  -- `log.Printf("skipping %s (offline)", name)`.
  | logSkipping (name : String)
  -- `jsonOut.Encode(groups)`.
  | stdoutGroups (groups : GoSlice Group)
  -- `jsonOut.Encode(devices)`.
  | stdoutDevices (devices : GoSlice Device)
  -- `flag.Usage()`.
  | usage
deriving DecidableEq

/-- How `main` ends. -/
inductive Exit where
  -- `main` returns.
  | returned : Exit
  -- `log.Fatal(err)` with an error value.
  | fatalErr (err : GoError) : Exit
  -- `log.Fatal(msg)` with a string.
  | fatalMsg (msg : String) : Exit
deriving DecidableEq

/-! ## The functions of `main.go` -/

/-- Log in and get a session cookie (`Authenticate`, lines 70-118). -/
def Authenticate {τ : Type} (w : World τ) (email password : String) :
    List Event × Session × Option GoError :=
  match w.marshalLogin email password false with
  | .error err => ([], Session.zero, some err)
  | .ok reqBody =>
    match w.cookiejarNew with
    | .error err => ([], Session.zero, some err)
    | .ok jar =>
      let client : Client := { Jar := some jar }
      let call : Event :=
        Event.httpPost client "https://airtame.cloud/api/authenticate" "application/json" reqBody
      match w.post client "https://airtame.cloud/api/authenticate" "application/json" reqBody with
      | .error err => ([call], Session.zero, some err)
      | .ok resp =>
        if resp.StatusCode = StatusUnauthorized then
          ([call], Session.zero, some (GoError.errorsNew "authentication failed"))
        else if resp.StatusCode ≠ StatusOK then
          ([call, Event.stderrCopy resp.Body], Session.zero,
            some (GoError.errorsNew "unexpected status code"))
        else
          ([call], { Client := client }, none)

/-- All devices grouped by building (`Session.Devices`, lines 122-141). -/
def Session.Devices {τ : Type} (w : World τ) (s : Session) :
    List Event × GoSlice Group × Option GoError :=
  let call : Event := Event.httpGet s.Client "https://airtame.cloud/api/devices"
  match w.get s.Client "https://airtame.cloud/api/devices" with
  | .error err => ([call], GoSlice.nil, some err)
  | .ok resp =>
    if resp.StatusCode ≠ StatusOK then
      ([call, Event.stderrCopy resp.Body], GoSlice.nil,
        some (GoError.errorsNew "unexpected status code"))
    else
      match w.decodeGroups resp.Body with
      | .error err => ([call], GoSlice.nil, some err)
      | .ok groups => ([call], groups, none)

/-- The loop of `FlatDevices` (lines 152-155): starting from the nil slice,
append every group's devices. -/
def flatten (groups : GoSlice Group) : GoSlice Device :=
  groups.toList.foldl (fun devices group => devices.append group.Devices.toList)
    GoSlice.nil

/-- All devices, not grouped (`Session.FlatDevices`, lines 144-158). -/
def Session.FlatDevices {τ : Type} (w : World τ) (s : Session) :
    List Event × GoSlice Device × Option GoError :=
  match Session.Devices w s with
  | (evs, _, some err) => (evs, GoSlice.nil, some err)
  | (evs, groups, none) => (evs, flatten groups, none)

/-- The loop of `BulkReboot` (lines 162-165): starting from the nil slice,
append every device's ID. -/
def collectIDs (devices : GoSlice Device) : GoSlice Int :=
  devices.toList.foldl (fun deviceIDs device => deviceIDs.append [device.ID])
    GoSlice.nil

/-- Rendering of a `[]int` by `encoding/json`: the nil slice is `null`, any other
slice is a bracketed, comma separated list of decimal integers. -/
def marshalIntSlice : GoSlice Int → String
  | GoSlice.nil => "null"
  | GoSlice.mk l => "[" ++ ",".intercalate (l.map toString) ++ "]"

/-- Request body of the bulk reboot (lines 167-171): `json.Marshal` of the
struct whose only field `DeviceIDs []int` has the JSON key `deviceIds`;
marshalling this type cannot fail. -/
def marshalDeviceIDs (deviceIDs : GoSlice Int) : Except GoError String :=
  .ok ("\x7b\"deviceIds\":" ++ marshalIntSlice deviceIDs ++ "\x7d")

/-- Reboot all the devices passed in (`Session.BulkReboot`, lines 161-209). -/
def Session.BulkReboot {τ : Type} (w : World τ) (s : Session)
    (devices : GoSlice Device) : List Event × Option GoError :=
  let deviceIDs := collectIDs devices
  match marshalDeviceIDs deviceIDs with
  | .error err => ([], some err)
  | .ok reqBody =>
    let call : Event :=
      Event.httpPost s.Client "https://airtame.cloud/api/devices/commands/reboot/bulk"
        "application/json" reqBody
    match w.post s.Client "https://airtame.cloud/api/devices/commands/reboot/bulk"
        "application/json" reqBody with
    | .error err => ([call], some err)
    | .ok resp =>
      if resp.StatusCode ≠ StatusOK then
        ([call, Event.stderrCopy resp.Body],
          some (GoError.errorsNew "unexpected status code"))
      else
        match w.decodeErrors resp.Body with
        | .error err => ([call], some err)
        | .ok errs =>
          if errs.len > 0 then
            (call :: errs.toList.map (fun err => Event.logPrintln (w.sprintln err)),
              some (GoError.errorsNew "errors occurred"))
          else
            ([call], none)

/-- The loop of the `reboot` verb (lines 266-273): convert the device ID
arguments to hollow devices, appending to `devices`; the first argument that
`strconv.Atoi` rejects ends the run with `log.Fatal(err)`. -/
def hollowDevices {τ : Type} (w : World τ) :
    List String → GoSlice Device → Except GoError (GoSlice Device)
  | [], devices => .ok devices
  | deviceID :: rest, devices =>
    match w.atoi deviceID with
    | .error err => .error err
    | .ok idInt => hollowDevices w rest (devices.append [Device.hollow idInt])

/-- The loop of the `rebootall` verb (lines 290-297): keep the devices whose
network state is online, appending to `onlineDevices`, and log every other
device as skipped. -/
def filterOnline :
    List Device → GoSlice Device → List Event × GoSlice Device
  | [], onlineDevices => ([], onlineDevices)
  | device :: rest, onlineDevices =>
    if device.NetworkState.Online then
      filterOnline rest (onlineDevices.append [device])
    else
      match filterOnline rest onlineDevices with
      | (skipped, result) => (Event.logSkipping device.DeviceName :: skipped, result)

/-- The command dispatcher (`main`, lines 211-306) after flag parsing: `email`
and `password` are the flag values and `args` is `flag.Args()`. -/
def main {τ : Type} (w : World τ) (email password : String) (args : List String) :
    List Event × Exit :=
  -- flag.Arg(0) is the empty string when there is no argument
  let verb := w.toLower (args.headD "")
  if verb = "devices" then
    match Authenticate w email password with
    | (evs, _, some err) => (evs, Exit.fatalErr err)
    | (evs, s, none) =>
      match Session.Devices w s with
      | (evs2, _, some err) => (evs ++ evs2, Exit.fatalErr err)
      | (evs2, devices, none) =>
        match w.encodeGroups devices with
        | some err => (evs ++ evs2 ++ [Event.stdoutGroups devices], Exit.fatalErr err)
        | none => (evs ++ evs2 ++ [Event.stdoutGroups devices], Exit.returned)
  else if verb = "flatdevices" then
    match Authenticate w email password with
    | (evs, _, some err) => (evs, Exit.fatalErr err)
    | (evs, s, none) =>
      match Session.FlatDevices w s with
      | (evs2, _, some err) => (evs ++ evs2, Exit.fatalErr err)
      | (evs2, devices, none) =>
        match w.encodeDevices devices with
        | some err => (evs ++ evs2 ++ [Event.stdoutDevices devices], Exit.fatalErr err)
        | none => (evs ++ evs2 ++ [Event.stdoutDevices devices], Exit.returned)
  else if verb = "reboot" then
    match Authenticate w email password with
    | (evs, _, some err) => (evs, Exit.fatalErr err)
    | (evs, s, none) =>
      let deviceIDs := args.drop 1
      if deviceIDs.length = 0 then
        (evs, Exit.fatalMsg "no devices specified")
      else
        match hollowDevices w deviceIDs GoSlice.nil with
        | .error err => (evs, Exit.fatalErr err)
        | .ok devices =>
          match Session.BulkReboot w s devices with
          | (evs2, some err) => (evs ++ evs2, Exit.fatalErr err)
          | (evs2, none) => (evs ++ evs2, Exit.returned)
  else if verb = "rebootall" then
    match Authenticate w email password with
    | (evs, _, some err) => (evs, Exit.fatalErr err)
    | (evs, s, none) =>
      match Session.FlatDevices w s with
      | (evs2, _, some err) => (evs ++ evs2, Exit.fatalErr err)
      | (evs2, devices, none) =>
        match filterOnline devices.toList GoSlice.nil with
        | (skipped, onlineDevices) =>
          match Session.BulkReboot w s onlineDevices with
          | (evs3, some err) => (evs ++ evs2 ++ skipped ++ evs3, Exit.fatalErr err)
          | (evs3, none) => (evs ++ evs2 ++ skipped ++ evs3, Exit.returned)
  else
    ([Event.usage], Exit.returned)


/-! ## Helpers for statements -/

/-- Whether an event is an HTTP request. -/
def Event.isNetworkCall : Event → Bool
  | Event.httpPost _ _ _ _ => true
  | Event.httpGet _ _ => true
  | _ => false

/-- Whether an event is a POST to the bulk reboot endpoint. -/
def Event.isBulkReboot : Event → Bool
  | Event.httpPost _ url _ _ => url == "https://airtame.cloud/api/devices/commands/reboot/bulk"
  | _ => false

/-- Stand-in for `strconv.Atoi` on a 64-bit platform: an optional sign followed
by at least one ASCII digit, with a value inside the `int` range. -/
def decimalAtoi (s : String) : Except GoError Int :=
  let digits : List Char :=
    match s.data with
    | '-' :: rest => rest
    | '+' :: rest => rest
    | cs => cs
  if digits = [] ∨ ¬ digits.all Char.isDigit then
    .error (GoError.external "strconv.Atoi: invalid syntax")
  else
    let n : Nat := digits.foldl (fun acc c => 10 * acc + (c.toNat - '0'.toNat)) 0
    let v : Int := if s.data.head? = some '-' then - (n : Int) else (n : Int)
    if v < -9223372036854775808 ∨ 9223372036854775807 < v then
      .error (GoError.external "strconv.Atoi: value out of range")
    else
      .ok v

/-- Dynamic Go value of an entry of the `errors` array once `encoding/json` has
decoded it into `interface{}`, for the two shapes the source comment expects:
a JSON string becomes a Go `string`, a JSON number becomes a `float64` (here
one holding an integer of magnitude below 2^53, which `float64` holds
exactly). -/
inductive GoValue where
  | string (s : String) : GoValue
  | float64 (v : Int) : GoValue
deriving DecidableEq

/-- Stand-in for the default formatting (`%v`) of an integer-valued `float64`:
the shortest decimal digits, in plain form while the decimal exponent is
below 6 and in exponent form (`d.ddde+XX`) from there on. -/
def formatFloat64 (v : Int) : String :=
  let sign : String := if v < 0 then "-" else ""
  let digits : List Char := (toString v.natAbs).data
  let exp : Nat := digits.length - 1
  if exp < 6 then
    sign ++ String.mk digits
  else
    let shortest : List Char := (digits.reverse.dropWhile (fun c => c == '0')).reverse
    let fraction : String :=
      if shortest.tail = [] then "" else "." ++ String.mk shortest.tail
    sign ++ String.mk (shortest.take 1) ++ fraction ++ "e+"
      ++ (if exp < 10 then "0" else "") ++ toString exp

/-- Stand-in for `fmt.Sprintln` (without the newline) on a decoded entry: a
string is written as it is, a `float64` in its default format. -/
def sprintValue : GoValue → String
  | GoValue.string s => s
  | GoValue.float64 v => formatFloat64 v

/-- Reading position inside the `errors` array of a response body. -/
inductive ScanState where
  -- right after the opening bracket
  | first : ScanState
  -- right after a comma
  | entry (acc : List GoValue) : ScanState
  -- inside a string literal, its characters so far in reverse
  | inString (acc : List GoValue) (chars : List Char) : ScanState
  -- inside a number literal, its digits so far in reverse
  | inNumber (acc : List GoValue) (negative : Bool) (digits : List Char) : ScanState
  -- right after an entry
  | afterEntry (acc : List GoValue) : ScanState
  -- right after the closing bracket
  | closed (acc : List GoValue) : ScanState
  -- right after the closing brace of the object
  | finished (acc : List GoValue) : ScanState
  -- text outside the fragment
  | failed : ScanState

/-- The number a JSON integer literal denotes: no leading zero, no negative
zero, magnitude below 2^53. -/
def numberOfDigits (negative : Bool) (reversed : List Char) : Option GoValue :=
  let digits := reversed.reverse
  let n : Nat := digits.foldl (fun acc c => 10 * acc + (c.toNat - '0'.toNat)) 0
  if digits = [] ∨ (digits.head? = some '0' ∧ digits.length ≠ 1) ∨ (negative = true ∧ n = 0)
      ∨ 9007199254740992 ≤ n then
    none
  else
    some (GoValue.float64 (if negative then - (n : Int) else (n : Int)))

/-- One character of the `errors` array. -/
def scanStep : ScanState → Char → ScanState
  | ScanState.first, c =>
    if c = ']' then ScanState.closed []
    else if c = '"' then ScanState.inString [] []
    else if c = '-' then ScanState.inNumber [] true []
    else if c.isDigit then ScanState.inNumber [] false [c]
    else ScanState.failed
  | ScanState.entry acc, c =>
    if c = '"' then ScanState.inString acc []
    else if c = '-' then ScanState.inNumber acc true []
    else if c.isDigit then ScanState.inNumber acc false [c]
    else ScanState.failed
  | ScanState.inString acc chars, c =>
    if c = '"' then ScanState.afterEntry (acc ++ [GoValue.string (String.mk chars.reverse)])
    else if c = '\\' ∨ c.toNat < 32 then ScanState.failed
    else ScanState.inString acc (c :: chars)
  | ScanState.inNumber acc negative digits, c =>
    if c.isDigit then ScanState.inNumber acc negative (c :: digits)
    else
      match numberOfDigits negative digits with
      | none => ScanState.failed
      | some v =>
        if c = ',' then ScanState.entry (acc ++ [v])
        else if c = ']' then ScanState.closed (acc ++ [v])
        else ScanState.failed
  | ScanState.afterEntry acc, c =>
    if c = ',' then ScanState.entry acc
    else if c = ']' then ScanState.closed acc
    else ScanState.failed
  | ScanState.closed acc, c =>
    if c = '\x7d' then ScanState.finished acc else ScanState.failed
  | ScanState.finished _, _ => ScanState.failed
  | ScanState.failed, _ => ScanState.failed

/-- What is left of `text` after the leading `literal`, if it starts with it. -/
def afterLiteral : List Char → List Char → Option (List Char)
  | [], text => some text
  | _ :: _, [] => none
  | l :: literal, c :: text => if l = c then afterLiteral literal text else none

/-- Stand-in for `json.NewDecoder(body).Decode(&respObj)` on compact response
bodies: the empty object and a `null` value leave `respObj.Errors` nil, an
array of string literals without escapes and of integer literals gives the
slice of their values; any other text is refused. -/
def decodeErrorsBody (body : String) : Except GoError (GoSlice GoValue) :=
  if body = "\x7b\x7d" ∨ body = "\x7b\"errors\":null\x7d" then
    .ok GoSlice.nil
  else
    match afterLiteral "\x7b\"errors\":[".data body.data with
    | none => .error (GoError.external "json: cannot decode the response")
    | some rest =>
      match rest.foldl scanStep ScanState.first with
      | ScanState.finished acc => .ok (GoSlice.mk acc)
      | _ => .error (GoError.external "json: cannot decode the response")

/-- A stub server and library: the login POST, the directory GET and the bulk
reboot POST answer with fixed results, the directory decoder returns a fixed
value, and the other library functions are the stand-ins above. -/
def stubWorld (login directory reboot : Except GoError Response)
    (groups : Except GoError (GoSlice Group)) : World GoValue :=
  { toLower := fun s => String.mk (s.data.map Char.toLower)
    atoi := decimalAtoi
    marshalLogin := fun email password _ => .ok (email ++ ":" ++ password)
    cookiejarNew := .ok { id := 1 }
    post := fun _ url _ _ =>
      if url = "https://airtame.cloud/api/authenticate" then login else reboot
    get := fun _ _ => directory
    decodeGroups := fun _ => groups
    decodeErrors := decodeErrorsBody
    sprintln := sprintValue
    encodeGroups := fun _ => none
    encodeDevices := fun _ => none }

/-- A device with the given ID, display name and online flag, other fields at
their zero value. -/
def sampleDevice (id : Int) (name : String) (online : Bool) : Device :=
  { Device.zero with
    ID := id, DeviceName := name,
    NetworkState := { Online := online, Interfaces := GoSlice.nil } }

/-- A 200 response with the given body. -/
def okResponse (body : String) : Response := { StatusCode := 200, Body := body }

/-- The session a successful login in the stub world returns. -/
def stubSession : Session := { Client := { Jar := some { id := 1 } } }

/-- Two buildings with 2 and 3 devices; device ID 2 is listed in both. -/
def sampleGroups : GoSlice Group :=
  GoSlice.mk
    [ { GroupID := 1, GroupName := "north", OrganizationID := 9,
        Devices := GoSlice.mk [sampleDevice 1 "lobby" false, sampleDevice 2 "lab" true] },
      { GroupID := 2, GroupName := "south", OrganizationID := 9,
        Devices := GoSlice.mk [sampleDevice 2 "lab" true, sampleDevice 3 "hall" false,
          sampleDevice 4 "gym" true] } ]

/-- One building whose two devices are both offline. -/
def offlineGroups : GoSlice Group :=
  GoSlice.mk
    [ { GroupID := 1, GroupName := "north", OrganizationID := 9,
        Devices := GoSlice.mk [sampleDevice 1 "lobby" false, sampleDevice 3 "hall" false] } ]

/-- Stub world in which every request is answered with status 200, the
directory holds `groups` and the bulk reboot reports no errors. -/
def happyWorld (groups : GoSlice Group) : World GoValue :=
  stubWorld (.ok (okResponse "")) (.ok (okResponse ""))
    (.ok (okResponse "\x7b\"errors\":[]\x7d")) (.ok groups)

/-- Stub world whose login POST is answered with the given status and every
other request with status 200. -/
def loginWorld (status : Int) : World GoValue :=
  stubWorld (.ok { StatusCode := status, Body := "denied" }) (.ok (okResponse ""))
    (.ok (okResponse "\x7b\"errors\":[]\x7d")) (.ok GoSlice.nil)

/-- Stub world whose bulk reboot POST is answered with the given response. -/
def rebootWorld (resp : Response) : World GoValue :=
  stubWorld (.ok (okResponse "")) (.ok (okResponse "")) (.ok resp) (.ok GoSlice.nil)

/-! ## Basic facts about slices and the loops -/

theorem GoSlice.toList_append {α : Type} (s : GoSlice α) (xs : List α) :
    (s.append xs).toList = s.toList ++ xs := by
  cases s with
  | nil => cases xs <;> rfl
  | mk l => rfl

theorem foldl_append_toList (groups : List Group) (acc : GoSlice Device) :
    (groups.foldl (fun devices group => devices.append group.Devices.toList) acc).toList
      = acc.toList ++ (groups.map (fun g => g.Devices.toList)).flatten := by
  induction groups generalizing acc with
  | nil => simp
  | cons g gs ih => simp [ih, GoSlice.toList_append]

theorem flatten_toList (groups : GoSlice Group) :
    (flatten groups).toList = (groups.toList.map (fun g => g.Devices.toList)).flatten := by
  simp [flatten, foldl_append_toList]
  rfl

theorem GoSlice.append_append {α : Type} (s : GoSlice α) (x : α) (ys : List α) :
    (s.append [x]).append ys = s.append (x :: ys) := by
  cases s with
  | nil => rfl
  | mk l => simp [GoSlice.append]

theorem foldl_collect (devices : List Device) (acc : GoSlice Int) :
    devices.foldl (fun deviceIDs device => deviceIDs.append [device.ID]) acc
      = acc.append (devices.map (fun d => d.ID)) := by
  induction devices generalizing acc with
  | nil => cases acc <;> simp [GoSlice.append]
  | cons d ds ih => simp [ih, GoSlice.append_append]

theorem collectIDs_eq (devices : GoSlice Device) :
    collectIDs devices = GoSlice.nil.append (devices.toList.map (fun d => d.ID)) := by
  simp [collectIDs, foldl_collect]

theorem collectIDs_toList (devices : GoSlice Device) :
    (collectIDs devices).toList = devices.toList.map (fun d => d.ID) := by
  rw [collectIDs_eq, GoSlice.toList_append]
  rfl

theorem hollowDevices_error {τ : Type} (w : World τ) (args : List String)
    (acc : GoSlice Device) (h : ∃ a ∈ args, ∃ err, w.atoi a = .error err) :
    ∃ a ∈ args, ∃ err, w.atoi a = .error err ∧ hollowDevices w args acc = .error err := by
  induction args generalizing acc with
  | nil => simp at h
  | cons a rest ih =>
    cases hat : w.atoi a with
    | error err => exact ⟨a, by simp, err, hat, by simp [hollowDevices, hat]⟩
    | ok i =>
      have hrest : ∃ b ∈ rest, ∃ err, w.atoi b = .error err := by
        obtain ⟨b, hb, err, hberr⟩ := h
        rcases List.mem_cons.mp hb with rfl | hb
        · rw [hat] at hberr; cases hberr
        · exact ⟨b, hb, err, hberr⟩
      obtain ⟨b, hb, err, hberr, hrun⟩ := ih (acc.append [Device.hollow i]) hrest
      exact ⟨b, List.mem_cons_of_mem _ hb, err, hberr, by simp [hollowDevices, hat, hrun]⟩

theorem BulkReboot_events {τ : Type} (w : World τ) (s : Session) (devices : GoSlice Device) :
    ∃ rest, (Session.BulkReboot w s devices).1
        = Event.httpPost s.Client "https://airtame.cloud/api/devices/commands/reboot/bulk"
            "application/json"
            ("\x7b\"deviceIds\":" ++ marshalIntSlice (collectIDs devices) ++ "\x7d") :: rest ∧
      ∀ e ∈ rest, e.isNetworkCall = false := by
  simp only [Session.BulkReboot, marshalDeviceIDs]
  cases w.post s.Client "https://airtame.cloud/api/devices/commands/reboot/bulk"
      "application/json" ("\x7b\"deviceIds\":" ++ marshalIntSlice (collectIDs devices) ++ "\x7d") with
  | error err => exact ⟨[], rfl, by simp⟩
  | ok resp =>
    by_cases hs : resp.StatusCode = StatusOK
    · cases hd : w.decodeErrors resp.Body with
      | error err => exact ⟨[], by simp [hs, hd], by simp⟩
      | ok errs =>
        by_cases hl : errs.len > 0
        · exact ⟨errs.toList.map (fun err => Event.logPrintln (w.sprintln err)),
            by simp [hs, hd, hl], by simp [Event.isNetworkCall]⟩
        · exact ⟨[], by simp [hs, hd, hl], by simp⟩
    · exact ⟨[Event.stderrCopy resp.Body], by simp [hs], by simp [Event.isNetworkCall]⟩

theorem collectIDs_congr (devices devices' : GoSlice Device)
    (h : devices'.toList.map (fun d => d.ID) = devices.toList.map (fun d => d.ID)) :
    collectIDs devices' = collectIDs devices := by
  rw [collectIDs_eq, collectIDs_eq, h]

theorem Authenticate_no_bulk {τ : Type} (w : World τ) (email password : String) :
    (Authenticate w email password).1.filter Event.isBulkReboot = [] := by
  have hurl : ("https://airtame.cloud/api/authenticate"
      == "https://airtame.cloud/api/devices/commands/reboot/bulk") = false := by decide
  simp only [Authenticate]
  split
  · rfl
  · split
    · rfl
    · split
      · simp [Event.isBulkReboot, hurl]
      · split_ifs <;> simp [Event.isBulkReboot, hurl]

theorem BulkReboot_filter {τ : Type} (w : World τ) (s : Session) (devices : GoSlice Device) :
    (Session.BulkReboot w s devices).1.filter Event.isBulkReboot
      = [Event.httpPost s.Client "https://airtame.cloud/api/devices/commands/reboot/bulk"
            "application/json"
            ("\x7b\"deviceIds\":" ++ marshalIntSlice (collectIDs devices) ++ "\x7d")] := by
  obtain ⟨rest, hrest, hnet⟩ := BulkReboot_events w s devices
  have hrest0 : rest.filter Event.isBulkReboot = [] := by
    rw [List.filter_eq_nil_iff]
    intro e he
    have := hnet e he
    cases e <;> simp_all [Event.isBulkReboot, Event.isNetworkCall]
  rw [hrest, List.filter_cons, hrest0]
  simp [Event.isBulkReboot]

theorem Authenticate_posts_first {τ : Type} (w : World τ) (email password reqBody : String)
    (jar : CookieJar)
    (hm : w.marshalLogin email password false = .ok reqBody)
    (hj : w.cookiejarNew = .ok jar) :
    ∃ rest, (Authenticate w email password).1
      = Event.httpPost { Jar := some jar } "https://airtame.cloud/api/authenticate"
          "application/json" reqBody :: rest := by
  simp only [Authenticate, hm, hj]
  split
  · exact ⟨[], rfl⟩
  · split_ifs
    · exact ⟨[], rfl⟩
    · exact ⟨_, rfl⟩
    · exact ⟨[], rfl⟩

theorem no_request_of_not_network (l : List Event) (h : ∀ e ∈ l, e.isNetworkCall = false) :
    ∀ e ∈ l, (∀ (c : Client) (u t b : String), e ≠ Event.httpPost c u t b) ∧
      (∀ (c : Client) (u : String), e ≠ Event.httpGet c u) := by
  intro e he
  have := h e he
  constructor
  · intro c u t b heq
    rw [heq] at this
    simp [Event.isNetworkCall] at this
  · intro c u heq
    rw [heq] at this
    simp [Event.isNetworkCall] at this

theorem marshalIntSlice_nil_append (ids : List Int) :
    marshalIntSlice (GoSlice.nil.append ids)
      = if ids = [] then "null" else "[" ++ ",".intercalate (ids.map toString) ++ "]" := by
  cases ids with
  | nil => rfl
  | cons i rest => rfl

/-! ## Device directory fetcher -/

/-- C1: when `Devices` succeeds with some groups, `FlatDevices` returns a nil
error and exactly the concatenation of the groups' device sequences, in group
order and intra-group order; its length is the sum of the groups' device
counts, and every device occurs as often as it occurs in all groups together
(nothing dropped, duplicated or deduplicated). -/
theorem FlatDevices_concatenates {τ : Type} (w : World τ) (s : Session)
    (evs : List Event) (groups : GoSlice Group)
    (h : Session.Devices w s = (evs, groups, none)) :
    (Session.FlatDevices w s).2.2 = none ∧
    (Session.FlatDevices w s).2.1.toList
      = (groups.toList.map (fun g => g.Devices.toList)).flatten ∧
    (Session.FlatDevices w s).2.1.len = (groups.toList.map (fun g => g.Devices.len)).sum ∧
    ∀ d : Device, (Session.FlatDevices w s).2.1.toList.count d
      = (groups.toList.map (fun g => g.Devices.toList.count d)).sum := by
  have hflat : Session.FlatDevices w s = (evs, flatten groups, none) := by
    simp [Session.FlatDevices, h]
  rw [hflat]
  refine ⟨rfl, flatten_toList groups, ?_, ?_⟩
  · simp [GoSlice.len, flatten_toList, List.length_flatten, Function.comp_def]
  · intro d
    simp [flatten_toList, List.count_flatten, Function.comp_def]

/-- Witness for C1: two groups with 2 and 3 devices give the 5 devices of the
first group followed by those of the second, the shared device ID 2 twice. -/
theorem FlatDevices_concatenates_witness :
    Session.Devices (happyWorld sampleGroups) stubSession
      = ([Event.httpGet stubSession.Client "https://airtame.cloud/api/devices"], sampleGroups, none) ∧
    (Session.FlatDevices (happyWorld sampleGroups) stubSession).2.1.toList
      = [sampleDevice 1 "lobby" false, sampleDevice 2 "lab" true, sampleDevice 2 "lab" true,
          sampleDevice 3 "hall" false, sampleDevice 4 "gym" true] ∧
    (Session.FlatDevices (happyWorld sampleGroups) stubSession).2.1.len = 5 :=
  ⟨by decide,
   (FlatDevices_concatenates (happyWorld sampleGroups) stubSession
      [Event.httpGet stubSession.Client "https://airtame.cloud/api/devices"] sampleGroups
      (by decide)).2.1.trans (by decide),
   (FlatDevices_concatenates (happyWorld sampleGroups) stubSession
      [Event.httpGet stubSession.Client "https://airtame.cloud/api/devices"] sampleGroups
      (by decide)).2.2.1.trans (by decide)⟩

/-! ## Authenticator -/

/-- C5: once the login POST has returned a response, `Authenticate` classifies
by the status code alone: 401 gives the error "authentication failed", 200
gives the session holding the cookie jar client and a nil error, every other
status gives the error "unexpected status code"; whenever the error is not nil
the returned session is the empty `Session` value. -/
theorem Authenticate_classifies {τ : Type} (w : World τ) (email password reqBody : String)
    (jar : CookieJar) (resp : Response)
    (hm : w.marshalLogin email password false = .ok reqBody)
    (hj : w.cookiejarNew = .ok jar)
    (hp : w.post { Jar := some jar } "https://airtame.cloud/api/authenticate"
      "application/json" reqBody = .ok resp) :
    (resp.StatusCode = 401 →
      (Authenticate w email password).2
        = (Session.zero, some (GoError.errorsNew "authentication failed"))) ∧
    (resp.StatusCode = 200 →
      (Authenticate w email password).2 = ({ Client := { Jar := some jar } }, none)) ∧
    (resp.StatusCode ≠ 401 → resp.StatusCode ≠ 200 →
      (Authenticate w email password).2
        = (Session.zero, some (GoError.errorsNew "unexpected status code"))) ∧
    ((Authenticate w email password).2.2 ≠ none →
      (Authenticate w email password).2.1 = Session.zero) := by
  simp only [Authenticate, hm, hj, hp, StatusUnauthorized, StatusOK]
  refine ⟨?_, ?_, ?_, ?_⟩
  · intro h; simp [h]
  · intro h; simp [h]
  · intro h1 h2; simp [h1, h2]
  · split_ifs <;> simp

/-- Witness for C5: a 401 answer of the stub server, whatever its body, is
reported as "authentication failed" with the empty session. -/
theorem Authenticate_classifies_witness :
    (Authenticate (loginWorld 401) "a@b.c" "pw").2
      = (Session.zero, some (GoError.errorsNew "authentication failed")) :=
  (Authenticate_classifies (loginWorld 401) "a@b.c" "pw" "a@b.c:pw" { id := 1 }
    { StatusCode := 401, Body := "denied" } (by decide) (by decide) (by decide)).1 (by decide)

/-! ## Bulk command issuer -/

/-- C3: once the bulk reboot POST has returned a response, `BulkReboot` returns
nil exactly when the status is 200 and the body decodes to an `errors`
collection of length 0; a status other than 200 gives "unexpected status code"
whatever the body, a 200 body the decoder rejects gives the decoder's error,
and a 200 body with a non-empty `errors` collection gives "errors occurred". -/
theorem BulkReboot_result {τ : Type} (w : World τ) (s : Session) (devices : GoSlice Device)
    (reqBody : String) (resp : Response)
    (hm : marshalDeviceIDs (collectIDs devices) = .ok reqBody)
    (hp : w.post s.Client "https://airtame.cloud/api/devices/commands/reboot/bulk"
      "application/json" reqBody = .ok resp) :
    ((Session.BulkReboot w s devices).2 = none ↔
      resp.StatusCode = 200 ∧
        ∃ errs, w.decodeErrors resp.Body = .ok errs ∧ errs.len = 0) ∧
    (resp.StatusCode ≠ 200 →
      (Session.BulkReboot w s devices).2
        = some (GoError.errorsNew "unexpected status code")) ∧
    (∀ err, resp.StatusCode = 200 → w.decodeErrors resp.Body = .error err →
      (Session.BulkReboot w s devices).2 = some err) ∧
    (∀ errs, resp.StatusCode = 200 → w.decodeErrors resp.Body = .ok errs → 0 < errs.len →
      (Session.BulkReboot w s devices).2 = some (GoError.errorsNew "errors occurred")) := by
  simp only [Session.BulkReboot, hm, hp, StatusOK]
  refine ⟨?_, ?_, ?_, ?_⟩
  · by_cases hs : resp.StatusCode = 200
    · cases hd : w.decodeErrors resp.Body with
      | error err => simp [hs]
      | ok errs =>
        by_cases hl : errs.len > 0
        · simp [hs, hl]; omega
        · simp [hs, hl]; omega
    · simp [hs]
  · intro hs; simp [hs]
  · intro err hs hd; simp [hs, hd]
  · intro errs hs hd hl; simp [hs, hd, hl]

/-- Witness for C3: a 500 answer gives "unexpected status code" although the
decoder would accept its body with no errors. -/
theorem BulkReboot_result_witness :
    (Session.BulkReboot (rebootWorld { StatusCode := 500, Body := "\x7b\"errors\":[]\x7d" })
      stubSession (GoSlice.mk [Device.hollow 7])).2
      = some (GoError.errorsNew "unexpected status code") :=
  (BulkReboot_result (rebootWorld { StatusCode := 500, Body := "\x7b\"errors\":[]\x7d" })
    stubSession (GoSlice.mk [Device.hollow 7]) "\x7b\"deviceIds\":[7]\x7d"
    { StatusCode := 500, Body := "\x7b\"errors\":[]\x7d" } (by decide) (by decide)).2.1
    (by decide)

/-- C6 as stated fails: it is not true of every device sequence that the body
of the POST carries the bracketed list of the devices' IDs; for the empty
sequence the list would be the empty brackets, and the body carries `null`. -/
theorem BulkReboot_body_is_not_always_the_ID_list :
    ¬ ∀ devices : GoSlice Device,
        (Session.BulkReboot (happyWorld GoSlice.nil) stubSession devices).1.head?
          = some (Event.httpPost stubSession.Client
              "https://airtame.cloud/api/devices/commands/reboot/bulk" "application/json"
              ("\x7b\"deviceIds\":"
                ++ ("[" ++ ",".intercalate
                    ((devices.toList.map (fun d => d.ID)).map (fun i => toString i)) ++ "]")
                ++ "\x7d")) := by
  intro h
  exact absurd (h (GoSlice.mk [])) (by decide)

/-- C6 amended: `BulkReboot` first issues the POST to the bulk reboot
endpoint and issues no other request.  For a non-empty device sequence the
`deviceIds` value of its body is the bracketed list of exactly the devices'
`ID` fields, in the same order and of the same length, duplicates kept; for a
device sequence of length 0 the value is `null`.  The slice that is marshalled
holds the `ID` fields in order, and two device sequences with the same ID
sequence make `BulkReboot` behave identically, so no other device field
influences the request. -/
theorem BulkReboot_request_ids {τ : Type} (w : World τ) (s : Session)
    (devices : GoSlice Device) :
    (∃ rest, (Session.BulkReboot w s devices).1
        = Event.httpPost s.Client "https://airtame.cloud/api/devices/commands/reboot/bulk"
            "application/json"
            ("\x7b\"deviceIds\":"
              ++ (if devices.toList.map (fun d => d.ID) = [] then "null"
                  else "[" ++ ",".intercalate
                    ((devices.toList.map (fun d => d.ID)).map (fun i => toString i)) ++ "]")
              ++ "\x7d") :: rest ∧
      ∀ e ∈ rest, (∀ (c : Client) (u t b : String), e ≠ Event.httpPost c u t b) ∧
        (∀ (c : Client) (u : String), e ≠ Event.httpGet c u)) ∧
    (collectIDs devices).toList = devices.toList.map (fun d => d.ID) ∧
    (collectIDs devices).len = devices.len ∧
    (∀ devices' : GoSlice Device,
      devices'.toList.map (fun d => d.ID) = devices.toList.map (fun d => d.ID) →
      Session.BulkReboot w s devices' = Session.BulkReboot w s devices) := by
  refine ⟨?_, collectIDs_toList devices, ?_, ?_⟩
  · obtain ⟨rest, hrest, hnet⟩ := BulkReboot_events w s devices
    refine ⟨rest, ?_, no_request_of_not_network rest hnet⟩
    rw [hrest, collectIDs_eq, marshalIntSlice_nil_append]
  · simp [GoSlice.len, collectIDs_toList]
  · intro devices' h
    simp only [Session.BulkReboot, collectIDs_congr devices devices' h]

/-- Witness for C6 amended: devices 5, 3, 5 with different names and states
are sent as the list 5, 3, 5, the same request the hollow devices 5, 3, 5
give. -/
theorem BulkReboot_request_ids_witness :
    (Session.BulkReboot (happyWorld GoSlice.nil) stubSession
      (GoSlice.mk [Device.hollow 5, Device.hollow 3, Device.hollow 5]))
      = ([Event.httpPost stubSession.Client
            "https://airtame.cloud/api/devices/commands/reboot/bulk" "application/json"
            "\x7b\"deviceIds\":[5,3,5]\x7d"], none) :=
  ((BulkReboot_request_ids (happyWorld GoSlice.nil) stubSession
      (GoSlice.mk [sampleDevice 5 "lobby" true, sampleDevice 3 "lab" false,
        sampleDevice 5 "gym" true])).2.2.2
    (GoSlice.mk [Device.hollow 5, Device.hollow 3, Device.hollow 5]) (by decide)).trans
    (by decide)

/-- C10 as stated fails: for the empty device sequence (nil or not) the POST is
issued, but its body is not the text with an empty list for `deviceIds`. -/
theorem BulkReboot_empty_body_is_not_empty_list :
    (Session.BulkReboot (happyWorld GoSlice.nil) stubSession GoSlice.nil).1
      = [Event.httpPost stubSession.Client
            "https://airtame.cloud/api/devices/commands/reboot/bulk" "application/json"
            "\x7b\"deviceIds\":null\x7d"] ∧
    (Session.BulkReboot (happyWorld GoSlice.nil) stubSession (GoSlice.mk [])).1
      = [Event.httpPost stubSession.Client
            "https://airtame.cloud/api/devices/commands/reboot/bulk" "application/json"
            "\x7b\"deviceIds\":null\x7d"] ∧
    (Session.BulkReboot (happyWorld GoSlice.nil) stubSession (GoSlice.mk [])).1.head?
      ≠ some (Event.httpPost stubSession.Client
            "https://airtame.cloud/api/devices/commands/reboot/bulk" "application/json"
            "\x7b\"deviceIds\":[]\x7d") := by
  decide

/-- C10 amended: `BulkReboot` performs no emptiness check; given a device
sequence of length 0 it still issues the POST first, and because the ID slice
is then the nil slice the request body is the text with `null` for
`deviceIds`. -/
theorem BulkReboot_empty_sends_null {τ : Type} (w : World τ) (s : Session)
    (devices : GoSlice Device) (h : devices.len = 0) :
    ∃ rest, (Session.BulkReboot w s devices).1
      = Event.httpPost s.Client "https://airtame.cloud/api/devices/commands/reboot/bulk"
            "application/json" "\x7b\"deviceIds\":null\x7d" :: rest := by
  obtain ⟨rest, hrest, _⟩ := BulkReboot_events w s devices
  refine ⟨rest, ?_⟩
  have hnil : collectIDs devices = GoSlice.nil := by
    have hl : devices.toList = [] := List.length_eq_zero.mp h
    rw [collectIDs_eq, hl]
    rfl
  rw [hrest, hnil]
  rfl

/-- Witness for C10 amended: the non-nil empty slice of devices. -/
theorem BulkReboot_empty_sends_null_witness :
    ∃ rest, (Session.BulkReboot (happyWorld GoSlice.nil) stubSession
        (GoSlice.mk [])).1
      = Event.httpPost stubSession.Client
            "https://airtame.cloud/api/devices/commands/reboot/bulk" "application/json"
            "\x7b\"deviceIds\":null\x7d" :: rest :=
  BulkReboot_empty_sends_null (happyWorld GoSlice.nil) stubSession (GoSlice.mk [])
    (by decide)

/-! ## Command dispatcher -/

theorem main_reboot_auth_failed {τ : Type} (w : World τ) (email password : String)
    (args : List String) (evs : List Event) (s : Session) (err : GoError)
    (hv : w.toLower (args.headD "") = "reboot")
    (ha : Authenticate w email password = (evs, s, some err)) :
    main w email password args = (evs, Exit.fatalErr err) := by
  simp only [main, hv, ha]
  simp only [String.reduceEq, if_false, if_true, reduceIte]

theorem main_reboot_no_ids {τ : Type} (w : World τ) (email password : String)
    (args : List String) (evs : List Event) (s : Session)
    (hv : w.toLower (args.headD "") = "reboot")
    (ha : Authenticate w email password = (evs, s, none))
    (hnil : args.drop 1 = []) :
    main w email password args = (evs, Exit.fatalMsg "no devices specified") := by
  simp only [main, hv, ha, hnil]
  simp only [String.reduceEq, if_false, if_true, reduceIte, List.length_nil]

theorem main_reboot_bad_id {τ : Type} (w : World τ) (email password : String)
    (args : List String) (evs : List Event) (s : Session) (err : GoError)
    (hv : w.toLower (args.headD "") = "reboot")
    (ha : Authenticate w email password = (evs, s, none))
    (hne : args.drop 1 ≠ [])
    (hrun : hollowDevices w (args.drop 1) GoSlice.nil = .error err) :
    main w email password args = (evs, Exit.fatalErr err) := by
  have hlen : ¬ (args.drop 1).length = 0 := fun h => hne (List.length_eq_zero.mp h)
  simp only [main, hv, ha, hrun]
  simp only [String.reduceEq, if_false, if_true, reduceIte, hlen]

/-- C4 as stated fails: `reboot 10 abc` and `reboot` without IDs both send the
login POST before the arguments are looked at, and when the login is refused
the run ends with "authentication failed" instead of an input error. -/
theorem reboot_invalid_input_logs_in_first :
    main (happyWorld GoSlice.nil) "a@b.c" "pw" ["reboot", "10", "abc"]
      = ([Event.httpPost stubSession.Client "https://airtame.cloud/api/authenticate"
            "application/json" "a@b.c:pw"],
         Exit.fatalErr (GoError.external "strconv.Atoi: invalid syntax")) ∧
    main (happyWorld GoSlice.nil) "a@b.c" "pw" ["reboot"]
      = ([Event.httpPost stubSession.Client "https://airtame.cloud/api/authenticate"
            "application/json" "a@b.c:pw"],
         Exit.fatalMsg "no devices specified") ∧
    (main (happyWorld GoSlice.nil) "a@b.c" "pw" ["reboot", "10", "abc"]).1.any
      Event.isNetworkCall = true ∧
    main (loginWorld 401) "a@b.c" "pw" ["reboot", "10", "abc"]
      = ([Event.httpPost stubSession.Client "https://airtame.cloud/api/authenticate"
            "application/json" "a@b.c:pw"],
         Exit.fatalErr (GoError.errorsNew "authentication failed")) := by
  decide

/-- C4 amended: a `reboot` invocation whose ID list is empty or holds an
argument `strconv.Atoi` rejects causes exactly the events of `Authenticate`
(the login POST comes first once the request body and the cookie jar exist)
and never a bulk reboot request; if the login fails the run ends with the
login error, and if it succeeds the run ends with an input error: the message
"no devices specified" for an empty list, else the `Atoi` error of a rejected
argument. -/
theorem reboot_invalid_input {τ : Type} (w : World τ) (email password : String)
    (args : List String)
    (hv : w.toLower (args.headD "") = "reboot")
    (hbad : args.drop 1 = [] ∨ ∃ a ∈ args.drop 1, ∃ err, w.atoi a = .error err) :
    (main w email password args).1 = (Authenticate w email password).1 ∧
    (∀ reqBody jar, w.marshalLogin email password false = .ok reqBody →
      w.cookiejarNew = .ok jar →
      ∃ rest, (main w email password args).1
        = Event.httpPost { Jar := some jar } "https://airtame.cloud/api/authenticate"
            "application/json" reqBody :: rest) ∧
    (main w email password args).1.filter Event.isBulkReboot = [] ∧
    (∀ err, (Authenticate w email password).2.2 = some err →
      (main w email password args).2 = Exit.fatalErr err) ∧
    ((Authenticate w email password).2.2 = none →
      (args.drop 1 = [] ∧ (main w email password args).2 = Exit.fatalMsg "no devices specified") ∨
      (args.drop 1 ≠ [] ∧ ∃ a ∈ args.drop 1, ∃ err, w.atoi a = .error err ∧
        (main w email password args).2 = Exit.fatalErr err)) := by
  have hevs : (main w email password args).1 = (Authenticate w email password).1 ∧
      (∀ err, (Authenticate w email password).2.2 = some err →
        (main w email password args).2 = Exit.fatalErr err) ∧
      ((Authenticate w email password).2.2 = none →
        (args.drop 1 = [] ∧
          (main w email password args).2 = Exit.fatalMsg "no devices specified") ∨
        (args.drop 1 ≠ [] ∧ ∃ a ∈ args.drop 1, ∃ err, w.atoi a = .error err ∧
          (main w email password args).2 = Exit.fatalErr err)) := by
    rcases hA : Authenticate w email password with ⟨evs, s, _ | err⟩
    · by_cases hnil : args.drop 1 = []
      · rw [main_reboot_no_ids w email password args evs s hv hA hnil]
        exact ⟨rfl, by simp, fun _ => Or.inl ⟨hnil, rfl⟩⟩
      · have hex : ∃ a ∈ args.drop 1, ∃ err, w.atoi a = .error err :=
          hbad.resolve_left hnil
        obtain ⟨a, hmem, err, herr, hrun⟩ :=
          hollowDevices_error w (args.drop 1) GoSlice.nil hex
        rw [main_reboot_bad_id w email password args evs s err hv hA hnil hrun]
        exact ⟨rfl, by simp, fun _ => Or.inr ⟨hnil, a, hmem, err, herr, rfl⟩⟩
    · rw [main_reboot_auth_failed w email password args evs s err hv hA]
      refine ⟨rfl, ?_, by simp⟩
      intro err2 h
      simp only [Option.some.injEq] at h
      rw [h]
  refine ⟨hevs.1, ?_, ?_, hevs.2.1, hevs.2.2⟩
  · intro reqBody jar hm hj
    rw [hevs.1]
    exact Authenticate_posts_first w email password reqBody jar hm hj
  · rw [hevs.1]
    exact Authenticate_no_bulk w email password

/-- Witness for C4 amended: `reboot 10 abc` against the stub server. -/
theorem reboot_invalid_input_witness :
    (main (happyWorld GoSlice.nil) "a@b.c" "pw" ["reboot", "10", "abc"]).1
      = (Authenticate (happyWorld GoSlice.nil) "a@b.c" "pw").1 ∧
    (main (happyWorld GoSlice.nil) "a@b.c" "pw" ["reboot", "10", "abc"]).1.filter
      Event.isBulkReboot = [] :=
  ⟨(reboot_invalid_input (happyWorld GoSlice.nil) "a@b.c" "pw"
      ["reboot", "10", "abc"] (by decide)
      (Or.inr ⟨"abc", by decide, GoError.external "strconv.Atoi: invalid syntax",
        by decide⟩)).1,
   (reboot_invalid_input (happyWorld GoSlice.nil) "a@b.c" "pw"
      ["reboot", "10", "abc"] (by decide)
      (Or.inr ⟨"abc", by decide, GoError.external "strconv.Atoi: invalid syntax",
        by decide⟩)).2.2.1⟩

/-- C8 evaluated where it fails: `rebootall` with every fetched device offline
skips both devices and then calls `BulkReboot` on the empty (nil) slice, which
sends the request; the `reboot` verb with no IDs stops before the call. -/
theorem rebootall_reboots_empty_list :
    (filterOnline (flatten offlineGroups).toList GoSlice.nil).2 = GoSlice.nil ∧
    main (happyWorld offlineGroups) "a@b.c" "pw" ["rebootall"]
      = ([Event.httpPost stubSession.Client "https://airtame.cloud/api/authenticate"
            "application/json" "a@b.c:pw",
          Event.httpGet stubSession.Client "https://airtame.cloud/api/devices",
          Event.logSkipping "lobby", Event.logSkipping "hall",
          Event.httpPost stubSession.Client
            "https://airtame.cloud/api/devices/commands/reboot/bulk" "application/json"
            "\x7b\"deviceIds\":null\x7d"],
         Exit.returned) ∧
    (main (happyWorld offlineGroups) "a@b.c" "pw" ["rebootall"]).1.any
      Event.isBulkReboot = true ∧
    (main (happyWorld offlineGroups) "a@b.c" "pw" ["reboot"]).1.any
      Event.isBulkReboot = false := by
  decide

end Airtame
